import Mathlib

/-!
Shallow embedding of the n8n support scripts
(`delete_workflow.py`, `n8n_mcp_server.py`, `save_api_key.py`):
credential resolution, HTTP response classification, workflow lookup and
deletion, API-key persistence, and the tool-server handlers.

External collaborators (the HTTP transport, `json.loads`, the clock) are
modelled as explicit inputs: an HTTP call's outcome is either a transport
exception or a response carrying a status code, raw text, and the result of
parsing that text as JSON; file contents, directory listings and environment
variables are passed in explicitly.
-/

set_option linter.unusedVariables false

namespace N8n

/-- JSON values, the shallow embedding of the Python values handled by the
scripts (`dict` / `list` / `str` / `int` / `bool` / `None`).  Objects are
association lists with the insertion order of the Python `dict`. -/
inductive Json where
  | null
  | bool (b : Bool)
  | num (n : Int)
  | str (s : String)
  | arr (elems : List Json)
  | obj (fields : List (String × Json))

/-- `dict.get(k)`: the value of the first binding of `k`, if any. -/
def lookupField (kvs : List (String × Json)) (k : String) : Option Json :=
  (kvs.find? (fun p => p.1 == k)).map (·.2)

/-- `.get(k)` on a `Json` value: only objects have fields. -/
def Json.get (j : Json) (k : String) : Option Json :=
  match j with
  | .obj kvs => lookupField kvs k
  | _ => none

/-- Outcome of one HTTP request, as the scripts observe it: either a
network-level exception (`requests.exceptions.RequestException`) or a
response with a status code, its raw text, and the result of
`response.json()` (`Except.error` when the body is not valid JSON). -/
inductive HttpOutcome where
  | exc (msg : String)
  | resp (status : Nat) (text : String) (parsed : Except String Json)

/-- Python `str.isspace` characters, restricted to the ASCII range the key
files contain. -/
def pyIsSpace (c : Char) : Bool :=
  c = ' ' || c = '\t' || c = '\n' || c = '\r' || c = '\x0b' || c = '\x0c'

/-- Python `str.strip()` on a character list: drop whitespace from both
ends. -/
def pyStripList (cs : List Char) : List Char :=
  ((cs.dropWhile pyIsSpace).reverse.dropWhile pyIsSpace).reverse

/-- Python `str.strip()`. -/
def pyStrip (s : String) : String :=
  String.mk (pyStripList s.data)

/-! ## Credential resolver (`delete_workflow.py`)

File contents are passed in as `Option String`: `none` models a file that
does not exist or cannot be read (both return paths of the scripts coincide). -/

/-- The maximal run of non-whitespace characters at the head of `cs`, the
match of a greedy `[^\s]+`. -/
def takeNonSpace (cs : List Char) : List Char :=
  cs.takeWhile (fun c => !pyIsSpace c)

/-- `re.search(KEY + r'([^\s]+)', content)`: scan left to right for the first
position where the literal `key` is followed by at least one non-whitespace
character, and capture the maximal non-whitespace run after it. -/
def reSearchKV (key : List Char) : List Char → Option (List Char)
  | [] => none
  | c :: rest =>
    if key.isPrefixOf (c :: rest) then
      let v := takeNonSpace ((c :: rest).drop key.length)
      if v.isEmpty then reSearchKV key rest else some v
    else reSearchKV key rest

def emailKeyPattern : List Char := "N8N_ADMIN_EMAIL=".data

def passwordKeyPattern : List Char := "N8N_ADMIN_PASSWORD=".data

/-- `delete_workflow.load_credentials`: parse `N8N_ADMIN_EMAIL=...` and
`N8N_ADMIN_PASSWORD=...` out of the `.secret` file; both must be present
(and non-empty, which the regex guarantees) or the result is `(None, None)`. -/
def load_credentials (secretFile : Option String) : Option String × Option String :=
  match secretFile with
  | none => (none, none)
  | some content =>
    let email := (reSearchKV emailKeyPattern content.data).map String.mk
    let password := (reSearchKV passwordKeyPattern content.data).map String.mk
    match email, password with
    | some e, some p => (some e, some p)
    | _, _ => (none, none)

/-- `delete_workflow.load_api_key`: read the key file and strip it; an
absent/unreadable file or a whitespace-only content yields `none`.
No environment-variable fallback exists in this script. -/
def load_api_key (keyFile : Option String) : Option String :=
  match keyFile with
  | none => none
  | some content =>
    let apiKey := pyStrip content
    if apiKey = "" then none else some apiKey

/-- `n8n_mcp_server.load_api_key`: prefer the key file (stripped, non-empty),
fall back to the `N8N_API_KEY` environment variable, whose `os.getenv`
default is `""`; an empty result means "no key". -/
def mcp_load_api_key (keyFile : Option String) (envKey : String) : String :=
  match load_api_key keyFile with
  | some k => k
  | none => envKey

/-- The authentication outcome of `delete_workflow.main` (lines 258-283). -/
inductive AuthResult where
  | session
  | apiKey (k : String)
  | fatal
deriving DecidableEq, Repr

/-- The credential-resolution phase of `delete_workflow.main`: try the
`.secret` email/password pair and session login first; if the pair is absent
or login fails, fall back to `load_api_key`; exit fatally when that also
yields nothing.  `loginSucceeds` is the outcome of the `/rest/login` call
(external); `envKey` is the `N8N_API_KEY` environment variable, which this
script never reads — it is a parameter only so that theorems can quantify
over it. -/
def resolve_auth (secretFile : Option String) (loginSucceeds : Bool)
    (keyFile : Option String) (envKey : String) : AuthResult :=
  match load_credentials secretFile with
  | (some _, some _) =>
    if loginSucceeds then .session
    else
      match load_api_key keyFile with
      | some k => .apiKey k
      | none => .fatal
  | _ =>
    match load_api_key keyFile with
    | some k => .apiKey k
    | none => .fatal

/-! ## Workflow locator and deleter (`delete_workflow.py`) -/

/-- The loop test of `find_workflow_by_name`:
`isinstance(workflow, dict) and workflow.get("name") == workflow_name`.
The Python `==` against a string is true only for an equal string value. -/
def matchesName (workflowName : String) (w : Json) : Bool :=
  match w with
  | .obj kvs =>
    match lookupField kvs "name" with
    | some (.str s) => s == workflowName
    | _ => false
  | _ => false

/-- The response-shape normalization inside `find_workflow_by_name`
(lines 156-163): a dict is unwrapped through its `"data"` then
`"workflows"` field (defaulting to `[]`), a bare list is used as is.
`none` covers every shape whose iteration yields no workflow dicts or
raises (a non-list field value, a non-dict non-list payload): in all those
cases the function returns `None`. -/
def extract_workflows : Json → Option (List Json)
  | .arr ws => some ws
  | .obj kvs =>
    match (lookupField kvs "data").getD ((lookupField kvs "workflows").getD (.arr [])) with
    | .arr ws => some ws
    | _ => none
  | _ => none

/-- `delete_workflow.find_workflow_by_name`, given the outcome of the single
GET it issues: on a 200 response with a JSON payload, normalize the shape
and return the first dict entry whose `name` equals `workflowName`; every
error path (non-200 status, transport exception, unparsable body,
unexpected format) returns `None`. -/
def find_workflow_by_name (out : HttpOutcome) (workflowName : String) : Option Json :=
  match out with
  | .exc _ => none
  | .resp status _ parsed =>
    if status = 200 then
      match parsed with
      | .error _ => none
      | .ok data =>
        match extract_workflows data with
        | some ws => ws.find? (matchesName workflowName)
        | none => none
    else none

/-- Result of `delete_workflow.delete_workflow`: the function returns a
bool, and on failure logs the status and body (HTTP error) or the
exception text (transport error); the variants carry exactly what each
branch surfaces. -/
inductive DeleteResult where
  | success
  | httpFailure (status : Nat) (body : String)
  | transportFailure (msg : String)
deriving DecidableEq, Repr

/-- `delete_workflow.delete_workflow`, given the outcome of the single
DELETE it issues: status 200 or 204 is success, any other status is a
failure carrying status and body, an exception is a transport failure. -/
def delete_workflow (out : HttpOutcome) : DeleteResult :=
  match out with
  | .resp status text _ =>
    if status = 200 ∨ status = 204 then .success
    else .httpFailure status text
  | .exc m => .transportFailure m

/-! ## Tool-server handlers (`n8n_mcp_server.py`)

Each handler returns a human-readable string; the variants below carry the
data each branch interpolates into its string (status and body for HTTP
errors, the exception text for transport and parse errors), so that the
distinct error classes of the source stay distinct. -/

inductive ToolResult where
  | ok (payload : Json)
  | noKey
  | httpError (status : Nat) (body : String)
  | transportError (msg : String)
  | jsonParseError (msg : String)
  | unexpectedError (msg : String)

/-- `n8n_mcp_server.list_workflows`, given the resolved API key and the
outcome of its single GET: no key → the configuration error message;
status 200 → the parsed payload (dumped verbatim); other statuses → the
`"Error: {status} - {text}"` message; `RequestException` → the connection
error message; a 200 body that fails `response.json()` → the generic
`"Error: {e}"` path. -/
def list_workflows (apiKey : String) (out : HttpOutcome) : ToolResult :=
  if apiKey = "" then .noKey
  else
    match out with
    | .exc m => .transportError m
    | .resp status text parsed =>
      if status = 200 then
        match parsed with
        | .ok payload => .ok payload
        | .error e => .unexpectedError e
      else .httpError status text

/-! ## API-key persistence (`save_api_key.py`, `n8n_mcp_server.py`) -/

/-- Content and permission bits of one file. -/
structure FileData where
  content : String
  mode : Nat
deriving DecidableEq, Repr

/-- A flat file system: an association list from path to file data. -/
abbrev FS := List (String × FileData)

/-- Mode bits a file freshly created by `open(..., 'w')` gets under the
default umask, before any `chmod`. -/
def defaultCreateMode : Nat := 0o644

def fsLookup : FS → String → Option FileData
  | [], _ => none
  | (p, fd) :: rest, path => if p == path then some fd else fsLookup rest path

/-- `open(path, 'w')` followed by `write(content)`: truncate and overwrite
an existing file keeping its mode, or create it with the default mode. -/
def fsWrite : FS → String → String → FS
  | [], path, content => [(path, ⟨content, defaultCreateMode⟩)]
  | (p, fd) :: rest, path, content =>
    if p == path then (p, ⟨content, fd.mode⟩) :: rest
    else (p, fd) :: fsWrite rest path content

/-- `os.chmod(path, mode)`. -/
def fsChmod : FS → String → Nat → FS
  | [], _, _ => []
  | (p, fd) :: rest, path, mode =>
    if p == path then (p, ⟨fd.content, mode⟩) :: rest
    else (p, fd) :: fsChmod rest path mode

/-- The fixed key-file path (`CONFIG_DIR` default `/app/config`). -/
def API_KEY_FILE : String := "/app/config/n8n_api_key.txt"

/-- `save_api_key.save_api_key` (the CLI script): write the stripped key to
the key file, then set mode `0o600`. -/
def save_api_key (apiKey : String) (fs : FS) : FS :=
  fsChmod (fsWrite fs API_KEY_FILE (pyStrip apiKey)) API_KEY_FILE 0o600

/-- `n8n_mcp_server._save_api_key_to_file`: the identical
write-then-chmod sequence inside the tool server. -/
def save_api_key_to_file (apiKey : String) (fs : FS) : FS :=
  fsChmod (fsWrite fs API_KEY_FILE (pyStrip apiKey)) API_KEY_FILE 0o600

/-- In-process state of the tool server: its files plus the module-global
`N8N_API_KEY` cache. -/
structure ServerState where
  fs : FS
  cachedKey : String

/-- The `save_api_key` tool handler: persist through
`_save_api_key_to_file` (which in this file-system model always succeeds),
then set the global cache to the unstripped argument. -/
def save_api_key_tool (apiKey : String) (st : ServerState) : ServerState :=
  { fs := save_api_key_to_file apiKey st.fs, cachedKey := apiKey }

/-! ## Workflow generation and persistence (`n8n_mcp_server.py`) -/

/-- The single start node of the generated template. -/
def startNode : Json :=
  .obj [("parameters", .obj []), ("id", .str "start-1"), ("name", .str "Start"),
        ("type", .str "n8n-nodes-base.start"), ("typeVersion", .num 1),
        ("position", .arr [.num 250, .num 300])]

/-- `generate_workflow_json`: the fixed template; `requirements` is
received but never used — turning requirements into nodes is an explicit
TODO stub in the source. -/
def generate_workflow_json (requirements : String) (workflowName : String) : Json :=
  .obj [("name", .str workflowName),
        ("nodes", .arr [startNode]),
        ("connections", .obj []),
        ("pinData", .obj []),
        ("settings", .obj [("executionOrder", .str "v1")]),
        ("staticData", .null),
        ("tags", .arr [])]

/-- Python `str.isalnum`, on the ASCII alphabet of workflow names. -/
def pyIsAlnum (c : Char) : Bool := c.isAlpha || c.isDigit

/-- The sanitizer in `save_workflow_to_file`: keep alphanumerics, spaces,
hyphens and underscores; strip; then replace spaces with underscores. -/
def sanitize_name (name : String) : String :=
  String.mk ((pyStripList (name.data.filter
    (fun c => pyIsAlnum c || c = ' ' || c = '-' || c = '_'))).map
      (fun c => if c = ' ' then '_' else c))

/-- Python `str.endswith`. -/
def pyEndsWith (s suffix : String) : Bool :=
  suffix.data.isSuffixOf s.data

/-- `if not filename.endswith('.json'): filename += '.json'`. -/
def ensure_json_ext (filename : String) : String :=
  if pyEndsWith filename ".json" then filename else filename ++ ".json"

/-- The default-filename path of `save_workflow_to_file` (no explicit
filename given): derive a safe name from the workflow's `name` field
(defaulting to `"workflow"`), append the `datetime.now()` timestamp (an
external input here), and ensure the `.json` extension.  `none` models the
uncaught exception raised when the workflow is not a dict or its name
value is not a string. -/
def workflow_file_name (workflow : Json) (timestamp : String) : Option String :=
  match workflow with
  | .obj kvs =>
    match (lookupField kvs "name").getD (.str "workflow") with
    | .str s => some (ensure_json_ext (sanitize_name s ++ "_" ++ timestamp ++ ".json"))
    | _ => none
  | _ => none

/-! ## Workflow import (`n8n_mcp_server.import_workflow`) -/

/-- What one `import_workflow` invocation did: its reported result, whether
the POST to the server was issued, and whether the workflow was written to
the local file first. -/
structure ImportOutcome where
  result : ToolResult
  requestMade : Bool
  fileSaved : Bool

/-- Marker for the text of the exception `save_workflow_to_file` raises on
a non-dict workflow or a non-string name value (the `str(e)` of the
`AttributeError`/`TypeError`); its exact wording comes from the Python
runtime, so only the error class is modelled. -/
def saveExceptionMsg : String := "save_workflow_to_file raised"

/-- `n8n_mcp_server.import_workflow`, given the resolved API key, the
result of `json.loads(workflow_json)`, the `save_to_file` flag, the
`datetime.now()` timestamp and the outcome of the POST it issues once the
earlier steps pass: a missing key or a parse failure returns before any
file write or network request; with `save_to_file` set,
`save_workflow_to_file` runs before the POST and, when it raises
(`workflow_file_name` is `none`: a non-dict payload or non-string name),
the generic `except Exception` handler returns `"Error: {e}"` with no
request made; otherwise the POST is issued and its response classified:
status 200/201 → success with the response payload; other statuses → the
`"Error importing workflow: {status} - {text}"` message; an exception →
the connection error message; a success body that fails `response.json()`
→ the generic handler.  Disk writes themselves succeed in this model, as
in the file-system model above. -/
def import_workflow (apiKey : String) (parsed : Except String Json)
    (saveToFile : Bool) (timestamp : String) (out : HttpOutcome) : ImportOutcome :=
  if apiKey = "" then ⟨.noKey, false, false⟩
  else
    match parsed with
    | .error e => ⟨.jsonParseError e, false, false⟩
    | .ok workflowData =>
      if saveToFile = true ∧ workflow_file_name workflowData timestamp = none then
        ⟨.unexpectedError saveExceptionMsg, false, false⟩
      else
        match out with
        | .exc m => ⟨.transportError m, true, saveToFile⟩
        | .resp status text presp =>
          if status = 200 ∨ status = 201 then
            match presp with
            | .ok body => ⟨.ok body, true, saveToFile⟩
            | .error e => ⟨.unexpectedError e, true, saveToFile⟩
          else ⟨.httpError status text, true, saveToFile⟩

/-! ## Saved-workflow listing (`n8n_mcp_server.list_saved_workflows`) -/

/-- One file of the workflows directory as the handler observes it: its
name, `stat` data, and the result of `json.load` on its content (`none`
when the content is not valid JSON). -/
structure DirEntry where
  filename : String
  mtime : Nat
  size : Nat
  parsed : Option Json

/-- One record of the handler's output; `modified` carries the `st_mtime`
value that the source renders through `datetime.fromtimestamp(...).isoformat()`. -/
structure SavedMeta where
  filename : String
  path : String
  name : Json
  size : Nat
  modified : Nat

/-- The workflows directory (`WORKFLOWS_DIR` default). -/
def WORKFLOWS_DIR : String := "/app/workflows"

/-- `sorted(workflows_dir.glob("*.json"), key=..st_mtime, reverse=True)`:
a stable descending sort by modification time.  Insertion sort with
"newer-or-equal goes first" is stable and sorted, hence extensionally the
Python sort. -/
def sortByMtimeDesc (files : List DirEntry) : List DirEntry :=
  files.insertionSort (fun a b => b.mtime ≤ a.mtime)

/-- The loop body for one file: `json.load` must succeed and (for `.get`
not to raise) yield a dict; otherwise the file is logged and skipped
(`none`). -/
def mkSavedMeta (e : DirEntry) : Option SavedMeta :=
  match e.parsed with
  | some (.obj kvs) =>
    some { filename := e.filename,
           path := WORKFLOWS_DIR ++ "/" ++ e.filename,
           name := (lookupField kvs "name").getD (.str "Unknown"),
           size := e.size,
           modified := e.mtime }
  | _ => none

/-- `list_saved_workflows`: keep the `*.json` files, sort newest first,
and append the metadata of each readable file, skipping the rest. -/
def list_saved_workflows (dir : List DirEntry) : List SavedMeta :=
  (sortByMtimeDesc (dir.filter (fun e => pyEndsWith e.filename ".json"))).foldl
    (fun acc e =>
      match mkSavedMeta e with
      | some m => acc ++ [m]
      | none => acc) []

/-! ## Supporting lemmas -/

/-- The append-accumulate loop of `list_saved_workflows` computes a
`filterMap`. -/
theorem foldl_append_filterMap (l : List DirEntry) (acc : List SavedMeta) :
    l.foldl
      (fun acc e =>
        match mkSavedMeta e with
        | some m => acc ++ [m]
        | none => acc) acc
      = acc ++ l.filterMap mkSavedMeta := by
  induction l generalizing acc with
  | nil => simp
  | cons e rest ih =>
    cases h : mkSavedMeta e with
    | none => simp [List.foldl_cons, h, ih, List.filterMap_cons]
    | some m => simp [List.foldl_cons, h, ih, List.filterMap_cons]

/-- The sort used by the listing is sorted by descending `mtime`. -/
theorem sortByMtimeDesc_sorted (files : List DirEntry) :
    (sortByMtimeDesc files).Pairwise (fun a b => b.mtime ≤ a.mtime) := by
  haveI : IsTotal DirEntry (fun a b => b.mtime ≤ a.mtime) :=
    ⟨fun a b => Nat.le_total b.mtime a.mtime⟩
  haveI : IsTrans DirEntry (fun a b => b.mtime ≤ a.mtime) :=
    ⟨fun _ _ _ hab hbc => Nat.le_trans hbc hab⟩
  exact List.sorted_insertionSort _ files

/-- A produced record carries its file's modification time. -/
theorem mkSavedMeta_modified {e : DirEntry} {m : SavedMeta}
    (h : mkSavedMeta e = some m) : m.modified = e.mtime := by
  unfold mkSavedMeta at h
  cases hp : e.parsed with
  | none => rw [hp] at h; cases h
  | some j =>
    rw [hp] at h
    cases j with
    | obj kvs => cases Option.some.inj h; rfl
    | null => cases h
    | bool b => cases h
    | num n => cases h
    | str s => cases h
    | arr elems => cases h

/-- Filtering the metadata out of a descending-`mtime` list yields a
descending-`modified` list. -/
theorem pairwise_filterMap_mtime (l : List DirEntry)
    (h : l.Pairwise (fun a b => b.mtime ≤ a.mtime)) :
    (l.filterMap mkSavedMeta).Pairwise (fun a b => b.modified ≤ a.modified) := by
  induction l with
  | nil => simp
  | cons e rest ih =>
    rcases List.pairwise_cons.mp h with ⟨he, hrest⟩
    cases hm : mkSavedMeta e with
    | none => simpa [List.filterMap_cons, hm] using ih hrest
    | some m =>
      rw [List.filterMap_cons, hm]
      refine List.pairwise_cons.mpr ⟨?_, ih hrest⟩
      intro m' hm'
      obtain ⟨e', he'mem, he'⟩ := List.mem_filterMap.mp hm'
      rw [mkSavedMeta_modified hm, mkSavedMeta_modified he']
      exact he e' he'mem

/-- A write followed by a chmod of the same path leaves exactly that
content and mode at the path. -/
theorem fsLookup_write_chmod (fs : FS) (path content : String) (mode : Nat) :
    fsLookup (fsChmod (fsWrite fs path content) path mode) path
      = some ⟨content, mode⟩ := by
  induction fs with
  | nil => simp [fsWrite, fsChmod, fsLookup]
  | cons hd rest ih =>
    obtain ⟨p, fd⟩ := hd
    by_cases hp : p = path
    · simp [fsWrite, fsChmod, fsLookup, hp]
    · simp only [fsWrite, fsChmod, fsLookup, beq_iff_eq, hp, if_false, ih]

/-- Appending `".json"` always yields a string that ends with `".json"`. -/
theorem pyEndsWith_append_json (s : String) :
    pyEndsWith (s ++ ".json") ".json" = true := by
  simp [pyEndsWith, String.data_append, List.isSuffixOf]

/-- Stripping keeps a sublist of the original characters. -/
theorem pyStripList_sublist (cs : List Char) : (pyStripList cs).Sublist cs := by
  have d1 : List.Sublist (cs.dropWhile pyIsSpace) cs :=
    List.dropWhile_sublist pyIsSpace
  have d2 : List.Sublist ((cs.dropWhile pyIsSpace).reverse.dropWhile pyIsSpace)
      (cs.dropWhile pyIsSpace).reverse :=
    List.dropWhile_sublist pyIsSpace
  have d3 := d2.reverse
  rw [List.reverse_reverse] at d3
  exact d3.trans d1

/-- `load_credentials` returns either a full pair or no pair at all. -/
theorem load_credentials_shape (s : Option String) :
    (∃ e p, load_credentials s = (some e, some p))
      ∨ load_credentials s = (none, none) := by
  unfold load_credentials
  cases s with
  | none => exact Or.inr rfl
  | some c =>
    cases h1 : reSearchKV emailKeyPattern c.data with
    | none => exact Or.inr (by simp [h1])
    | some e =>
      cases h2 : reSearchKV passwordKeyPattern c.data with
      | none => exact Or.inr (by simp [h1, h2])
      | some p => exact Or.inl ⟨String.mk e, String.mk p, by simp [h1, h2]⟩

/-- A key returned by `load_api_key` is never the empty string. -/
theorem load_api_key_ne_empty {kf : Option String} {k : String}
    (h : load_api_key kf = some k) : k ≠ "" := by
  unfold load_api_key at h
  cases kf with
  | none => exact absurd h (by simp)
  | some c =>
    by_cases hc : pyStrip c = ""
    · simp [hc] at h
    · simp only [hc, if_false] at h
      exact Option.some.inj h ▸ hc

/-! ## Claim theorems -/

/-- C9: a secret file with `N8N_ADMIN_EMAIL=a@x.com` and
`N8N_ADMIN_PASSWORD=p` resolves to exactly the pair `("a@x.com", "p")`;
when either key pattern is absent from the content, no credential pair is
returned at all. -/
theorem C9_load_credentials_exact_pair :
    load_credentials (some "N8N_ADMIN_EMAIL=a@x.com\nN8N_ADMIN_PASSWORD=p\n")
      = (some "a@x.com", some "p")
    ∧ ∀ content : String,
        (reSearchKV emailKeyPattern content.data = none
          ∨ reSearchKV passwordKeyPattern content.data = none) →
        load_credentials (some content) = (none, none) := by
  refine ⟨by decide, ?_⟩
  intro content h
  unfold load_credentials
  rcases h with h | h
  · simp [h]
  · cases h1 : reSearchKV emailKeyPattern content.data <;> simp [h1, h]

/-- C9 witness: a file holding only the email line yields no pair. -/
theorem C9_witness :
    load_credentials (some "N8N_ADMIN_EMAIL=a@x.com\n") = (none, none) :=
  C9_load_credentials_exact_pair.2 "N8N_ADMIN_EMAIL=a@x.com\n"
    (Or.inr (by decide))

/-- C1 counterexample: no secret-file pair and no key file, yet a usable
`N8N_API_KEY` environment value — the delete script's resolver is still
fatal, because it never consults the environment variable. -/
theorem C1_counterexample :
    resolve_auth none false none "usable-key" = AuthResult.fatal
      ∧ ("usable-key" : String) ≠ "" :=
  ⟨rfl, by decide⟩

/-- C1 (amended): whenever session login with the secret-file pair is not
attempted or fails, the delete script's resolver falls back to reading the
key file only, and signals "no credential available" (fatal) exactly when
the pair/login path and the key file both fail — independently of the
environment.  The environment-variable fallback exists only in the tool
server's key loader, which reports no key (empty) exactly when the key file
and the environment variable both fail. -/
theorem C1_amended_resolver_fallback :
    ∀ (secretFile : Option String) (loginSucceeds : Bool)
      (keyFile : Option String) (envKey : String),
      (resolve_auth secretFile loginSucceeds keyFile envKey = .fatal
        ↔ load_api_key keyFile = none
          ∧ ¬((load_credentials secretFile).1.isSome ∧ loginSucceeds = true))
      ∧ (mcp_load_api_key keyFile envKey = ""
        ↔ load_api_key keyFile = none ∧ envKey = "") := by
  intro secretFile loginSucceeds keyFile envKey
  constructor
  · rcases load_credentials_shape secretFile with ⟨e, p, heq⟩ | heq <;>
      rcases hk : load_api_key keyFile with _ | k <;>
      cases loginSucceeds <;>
      simp [resolve_auth, heq, hk]
  · unfold mcp_load_api_key
    rcases hk : load_api_key keyFile with _ | k
    · simp
    · simp [load_api_key_ne_empty hk]

/-- C1 witness: with no secret file, no key file and an empty environment,
the resolver is fatal, through the amended equivalence. -/
theorem C1_witness :
    resolve_auth none false none "" = AuthResult.fatal :=
  (C1_amended_resolver_fallback none false none "").1.mpr
    ⟨rfl, by simp [load_credentials]⟩

/-- C2 counterexample: a 201 response to the workflow-list call is a 2xx
status, yet `list_workflows` classifies it as a failure carrying the status
code and body, not as a success — the success set is `{200}`, not "any
2xx". -/
theorem C2_counterexample :
    (200 ≤ 201 ∧ 201 < 300)
    ∧ list_workflows "key" (.resp 201 "created" (.ok (.arr [])))
        = .httpError 201 "created" :=
  ⟨by decide, rfl⟩

/-- C2 (amended): each call classifies the outcome of its single request
(no retry exists: every client function consumes exactly one
`HttpOutcome`) against a call-specific success set — 200 for the
workflow-list and find calls, 200 or 201 for the create call, 200 or 204
for the delete call; every other status is a failure carrying the status
code and response body, and a network-level exception is a failure
carrying the transport error.  The create handler's optional pre-POST file
save can itself raise (non-dict payload): then it reports a generic error
and issues no call at all, so the classification above covers every call
actually issued. -/
theorem C2_amended_classification :
    ∀ (key m text nm ts : String) (status : Nat) (j jr : Json)
      (parsed : Except String Json) (save : Bool),
      key ≠ "" →
      (list_workflows key (.resp 200 text (.ok jr)) = .ok jr
        ∧ (status ≠ 200 →
            list_workflows key (.resp status text parsed) = .httpError status text)
        ∧ list_workflows key (.exc m) = .transportError m)
      ∧ ((save = true → (workflow_file_name j ts).isSome) →
          (import_workflow key (.ok j) save ts (.resp 200 text (.ok jr))).result = .ok jr
          ∧ (import_workflow key (.ok j) save ts (.resp 201 text (.ok jr))).result = .ok jr
          ∧ (status ≠ 200 → status ≠ 201 →
              (import_workflow key (.ok j) save ts (.resp status text parsed)).result
                = .httpError status text)
          ∧ (import_workflow key (.ok j) save ts (.exc m)).result = .transportError m)
      ∧ (workflow_file_name j ts = none → ∀ out : HttpOutcome,
          import_workflow key (.ok j) true ts out
            = ⟨.unexpectedError saveExceptionMsg, false, false⟩)
      ∧ ((delete_workflow (.resp status text parsed) = .success
            ↔ (status = 200 ∨ status = 204))
        ∧ (status ≠ 200 → status ≠ 204 →
            delete_workflow (.resp status text parsed) = .httpFailure status text)
        ∧ delete_workflow (.exc m) = .transportFailure m)
      ∧ ((status ≠ 200 →
            find_workflow_by_name (.resp status text parsed) nm = none)
        ∧ find_workflow_by_name (.exc m) nm = none) := by
  intro key m text nm ts status j jr parsed save hkey
  refine ⟨⟨?_, ?_, ?_⟩, ?_, ?_, ⟨?_, ?_, ?_⟩, ?_, ?_⟩
  · simp [list_workflows, hkey]
  · intro hs; simp [list_workflows, hkey, hs]
  · simp [list_workflows, hkey]
  · intro hsave
    have hsv : ¬(save = true ∧ workflow_file_name j ts = none) := by
      rintro ⟨hs, hn⟩
      have := hsave hs
      rw [hn] at this
      simp at this
    refine ⟨?_, ?_, ?_, ?_⟩
    · simp [import_workflow, hkey, hsv]
    · simp [import_workflow, hkey, hsv]
    · intro h1 h2; simp [import_workflow, hkey, hsv, h1, h2]
    · simp [import_workflow, hkey, hsv]
  · intro hn out
    simp [import_workflow, hkey, hn]
  · constructor
    · intro h
      by_cases hs : status = 200 ∨ status = 204
      · exact hs
      · simp [delete_workflow, hs] at h
    · intro hs; simp [delete_workflow, hs]
  · intro h1 h2; simp [delete_workflow, h1, h2]
  · simp [delete_workflow]
  · intro hs; simp [find_workflow_by_name, hs]
  · simp [find_workflow_by_name]

/-- C2 witness: concrete classifications through the amended theorem — a
500 list response is an HTTP failure with status and body, a 201 create
response (with the pre-POST save succeeding on a dict payload) is a
success with the parsed payload, and an exception on the delete call is a
transport failure. -/
theorem C2_witness :
    list_workflows "k" (.resp 500 "boom" (.ok (.arr []))) = .httpError 500 "boom"
    ∧ (import_workflow "k" (.ok (.obj [("name", .str "Wf")])) true "20251012_120000"
        (.resp 201 "" (.ok (.obj [("id", .str "7")])))).result
        = .ok (.obj [("id", .str "7")])
    ∧ delete_workflow (.exc "refused") = .transportFailure "refused" := by
  have h := C2_amended_classification "k" "refused" "boom" "n" "20251012_120000"
    500 (.obj [("name", .str "Wf")]) (.obj [("id", .str "7")])
    (.ok (.arr [])) true (by decide)
  exact ⟨h.1.2.1 (by decide), (h.2.1 (fun _ => by decide)).2.1, h.2.2.2.1.2.2⟩

/-- C3: on a 200 response whose payload is a bare list, or a dict wrapping
the list in `"data"`, or (when `"data"` is absent) in `"workflows"`, the
locator scans for the first entry whose `name` field equals the requested
name exactly; no matching entry means not-found (`none`). -/
theorem C3_find_normalizes_and_matches :
    ∀ (nm text : String) (ws : List Json) (kvs : List (String × Json)),
      (find_workflow_by_name (.resp 200 text (.ok (.arr ws))) nm
          = ws.find? (matchesName nm))
      ∧ (lookupField kvs "data" = some (.arr ws) →
          find_workflow_by_name (.resp 200 text (.ok (.obj kvs))) nm
            = ws.find? (matchesName nm))
      ∧ (lookupField kvs "data" = none →
          lookupField kvs "workflows" = some (.arr ws) →
          find_workflow_by_name (.resp 200 text (.ok (.obj kvs))) nm
            = ws.find? (matchesName nm))
      ∧ ((∀ w ∈ ws, matchesName nm w = false) → ws.find? (matchesName nm) = none)
      ∧ (∀ w, ws.find? (matchesName nm) = some w → matchesName nm w = true ∧ w ∈ ws) := by
  intro nm text ws kvs
  refine ⟨?_, ?_, ?_, ?_, ?_⟩
  · simp [find_workflow_by_name, extract_workflows]
  · intro h; simp [find_workflow_by_name, extract_workflows, h]
  · intro h1 h2; simp [find_workflow_by_name, extract_workflows, h1, h2]
  · intro h
    exact List.find?_eq_none.mpr (fun w hw => by simp [h w hw])
  · intro w hw
    exact ⟨List.find?_some hw, List.mem_of_find?_eq_some hw⟩

/-- C3 witness: a bare-list collection `[{"id": "2", "name": "Baz"}]`
locates `"Baz"` (format normalization), and `"Bar"` is not found. -/
theorem C3_witness :
    find_workflow_by_name
        (.resp 200 "" (.ok (.arr [.obj [("id", .str "2"), ("name", .str "Baz")]])))
        "Baz"
      = some (.obj [("id", .str "2"), ("name", .str "Baz")])
    ∧ find_workflow_by_name
        (.resp 200 "" (.ok (.arr [.obj [("id", .str "2"), ("name", .str "Baz")]])))
        "Bar"
      = none := by
  constructor
  · rw [(C3_find_normalizes_and_matches "Baz" ""
      [.obj [("id", .str "2"), ("name", .str "Baz")]] []).1]
    rfl
  · rw [(C3_find_normalizes_and_matches "Bar" ""
      [.obj [("id", .str "2"), ("name", .str "Baz")]] []).1]
    rfl

/-- C4: the delete call succeeds exactly on HTTP 200 or 204; every other
status (404 included) is a failure carrying the response body, and a
transport exception is also a failure. -/
theorem C4_delete_classification :
    ∀ (status : Nat) (text m : String) (parsed : Except String Json),
      (delete_workflow (.resp status text parsed) = .success
        ↔ (status = 200 ∨ status = 204))
      ∧ (status ≠ 200 → status ≠ 204 →
          delete_workflow (.resp status text parsed) = .httpFailure status text)
      ∧ delete_workflow (.exc m) = .transportFailure m := by
  intro status text m parsed
  refine ⟨⟨?_, ?_⟩, ?_, ?_⟩
  · intro h
    by_cases hs : status = 200 ∨ status = 204
    · exact hs
    · simp [delete_workflow, hs] at h
  · intro hs; simp [delete_workflow, hs]
  · intro h1 h2; simp [delete_workflow, h1, h2]
  · rfl

/-- C4 witness: 204 is success; 404 is a failure surfacing the body. -/
theorem C4_witness :
    delete_workflow (.resp 204 "" (.ok .null)) = .success
    ∧ delete_workflow (.resp 404 "not found" (.ok .null))
        = .httpFailure 404 "not found" :=
  ⟨(C4_delete_classification 204 "" "m" (.ok .null)).1.mpr (Or.inr rfl),
   (C4_delete_classification 404 "not found" "m" (.ok .null)).2.1
     (by decide) (by decide)⟩

/-- C6: with an API key available, an input that fails `json.loads` makes
the import handler return the JSON-parse-specific error — a variant
distinct from the HTTP and transport errors — with no file write and no
network request. -/
theorem C6_import_invalid_json_no_request :
    ∀ (key e m body ts : String) (status : Nat) (save : Bool) (out : HttpOutcome),
      key ≠ "" →
      import_workflow key (.error e) save ts out
          = ⟨.jsonParseError e, false, false⟩
      ∧ ToolResult.jsonParseError e ≠ .httpError status body
      ∧ ToolResult.jsonParseError e ≠ .transportError m := by
  intro key e m body ts status save out hkey
  refine ⟨?_, fun h => ToolResult.noConfusion h, fun h => ToolResult.noConfusion h⟩
  simp [import_workflow, hkey]

/-- C6 witness: the Python parse error for `"{not json"`, with the key
present, yields the parse-specific result and no request. -/
theorem C6_witness :
    import_workflow "k" (.error "Expecting value: line 1 column 2 (char 1)") true
        "20251012_120000" (.exc "unused")
      = ⟨.jsonParseError "Expecting value: line 1 column 2 (char 1)", false, false⟩ :=
  (C6_import_invalid_json_no_request "k" "Expecting value: line 1 column 2 (char 1)"
    "m" "b" "20251012_120000" 500 true (.exc "unused") (by decide)).1

/-- C5: after a save, the key file's permission bits are exactly
owner-read-write (`0o600`) and its content is the input with leading and
trailing whitespace stripped — for both the CLI script and the tool
server's helper; concretely, `"  secret-key \n"` is stored as
`"secret-key"`. -/
theorem C5_saved_key_file_mode_and_content :
    (∀ (apiKey : String) (fs : FS),
      fsLookup (save_api_key apiKey fs) API_KEY_FILE
          = some ⟨pyStrip apiKey, 0o600⟩
      ∧ fsLookup (save_api_key_to_file apiKey fs) API_KEY_FILE
          = some ⟨pyStrip apiKey, 0o600⟩)
    ∧ pyStrip "  secret-key \n" = "secret-key" := by
  refine ⟨fun apiKey fs => ⟨?_, ?_⟩, by decide⟩
  · exact fsLookup_write_chmod fs API_KEY_FILE (pyStrip apiKey) 0o600
  · exact fsLookup_write_chmod fs API_KEY_FILE (pyStrip apiKey) 0o600

/-- C10: after the `save_api_key` tool runs with input `k`, the in-process
cache holds `k` unmodified while the file holds `k` stripped; whenever
stripping changes `k` (leading or trailing whitespace), cache and file
content therefore differ. -/
theorem C10_cache_untrimmed_file_trimmed :
    ∀ (k : String) (st : ServerState),
      (save_api_key_tool k st).cachedKey = k
      ∧ fsLookup (save_api_key_tool k st).fs API_KEY_FILE
          = some ⟨pyStrip k, 0o600⟩
      ∧ (pyStrip k ≠ k →
          ∀ fd, fsLookup (save_api_key_tool k st).fs API_KEY_FILE = some fd →
            fd.content ≠ (save_api_key_tool k st).cachedKey) := by
  intro k st
  refine ⟨rfl, fsLookup_write_chmod st.fs API_KEY_FILE (pyStrip k) 0o600, ?_⟩
  intro hne fd hfd
  have heq : fsLookup (save_api_key_tool k st).fs API_KEY_FILE
      = some ⟨pyStrip k, 0o600⟩ :=
    fsLookup_write_chmod st.fs API_KEY_FILE (pyStrip k) 0o600
  cases Option.some.inj (hfd.symm.trans heq)
  exact hne

/-- C10 witness: saving `" key "` caches `" key "` but stores `"key"`,
which differ. -/
theorem C10_witness :
    (save_api_key_tool " key " ⟨[], "old"⟩).cachedKey = " key "
    ∧ ∀ fd,
        fsLookup (save_api_key_tool " key " ⟨[], "old"⟩).fs API_KEY_FILE = some fd →
        fd.content ≠ (save_api_key_tool " key " ⟨[], "old"⟩).cachedKey := by
  have h := C10_cache_untrimmed_file_trimmed " key " ⟨[], "old"⟩
  exact ⟨h.1, h.2.2 (by decide)⟩

/-- C8 counterexample: the generated template's `settings` is
`{"executionOrder": "v1"}`, not empty, and the sanitizer keeps hyphens and
underscores (mapping spaces to underscores) rather than stripping every
non-alphanumeric character. -/
theorem C8_counterexample :
    (generate_workflow_json "reqs" "wf").get "settings"
        = some (.obj [("executionOrder", .str "v1")])
    ∧ some (Json.obj [("executionOrder", Json.str "v1")]) ≠ some (Json.obj [])
    ∧ sanitize_name "a b-c" = "a_b-c"
    ∧ ("a_b-c" : String) ≠ "abc" := by
  refine ⟨rfl, ?_, by decide, by decide⟩
  intro h
  simp at h

/-- C8 (amended): the generate handler builds the same template whatever
the requirements are — one start node, empty connections, and the fixed
`{"executionOrder": "v1"}` settings — and, when persisting, names the file
from the workflow name keeping only alphanumerics, hyphens and
underscores (spaces becoming underscores), plus the timestamp and the
`.json` extension. -/
theorem C8_amended_generate_template :
    ∀ (req1 req2 nm ts : String),
      generate_workflow_json req1 nm = generate_workflow_json req2 nm
      ∧ (generate_workflow_json req1 nm).get "nodes" = some (.arr [startNode])
      ∧ (generate_workflow_json req1 nm).get "connections" = some (.obj [])
      ∧ (generate_workflow_json req1 nm).get "settings"
          = some (.obj [("executionOrder", .str "v1")])
      ∧ workflow_file_name (generate_workflow_json req1 nm) ts
          = some (sanitize_name nm ++ "_" ++ ts ++ ".json")
      ∧ (∀ c ∈ (sanitize_name nm).data,
          pyIsAlnum c = true ∨ c = '-' ∨ c = '_') := by
  intro req1 req2 nm ts
  refine ⟨rfl, rfl, rfl, rfl, ?_, ?_⟩
  · show some (ensure_json_ext (sanitize_name nm ++ "_" ++ ts ++ ".json")) = _
    rw [ensure_json_ext, pyEndsWith_append_json, if_pos rfl]
  · intro c hc
    simp only [sanitize_name, String.data] at hc
    obtain ⟨c', hc', rfl⟩ := List.mem_map.mp hc
    have hmem : c' ∈ nm.data.filter
        (fun c => pyIsAlnum c || c = ' ' || c = '-' || c = '_') :=
      List.Sublist.mem hc' (pyStripList_sublist _)
    have hkeep := List.of_mem_filter hmem
    by_cases hsp : c' = ' '
    · simp [hsp]
    · simp only [if_neg hsp]
      rcases Bool.or_eq_true_iff.mp hkeep with h | h
      · rcases Bool.or_eq_true_iff.mp h with h' | h'
        · rcases Bool.or_eq_true_iff.mp h' with h'' | h''
          · exact Or.inl h''
          · exact absurd (by simpa using h'') hsp
        · exact Or.inr (Or.inl (by simpa using h'))
      · exact Or.inr (Or.inr (by simpa using h))

/-- C8 witness: the amended theorem at a concrete name with a space and a
hyphen, showing the derived file name. -/
theorem C8_witness :
    workflow_file_name (generate_workflow_json "do things" "My Flow-2") "20251012_120000"
      = some "My_Flow-2_20251012_120000.json" := by
  rw [(C8_amended_generate_template "do things" "x" "My Flow-2" "20251012_120000").2.2.2.2.1]
  rfl

/-- C7: the listing is exactly the metadata of the readable files among
the `.json` files sorted newest first — a file that fails to parse is
skipped and never aborts the operation — the output itself is sorted
newest first by modification time, and a directory holding one corrupt
and one valid file yields only the valid file's metadata. -/
theorem C7_list_saved_skips_corrupt_sorted :
    (∀ dir : List DirEntry,
      list_saved_workflows dir
        = (sortByMtimeDesc (dir.filter
            (fun e => pyEndsWith e.filename ".json"))).filterMap mkSavedMeta)
    ∧ (∀ dir : List DirEntry,
        (list_saved_workflows dir).Pairwise (fun a b => b.modified ≤ a.modified))
    ∧ list_saved_workflows
        [⟨"good.json", 5, 10, some (.obj [("name", .str "Good")])⟩,
         ⟨"bad.json", 9, 3, none⟩]
        = [⟨"good.json", "/app/workflows/good.json", .str "Good", 10, 5⟩] := by
  refine ⟨?_, ?_, ?_⟩
  · intro dir
    unfold list_saved_workflows
    rw [foldl_append_filterMap]
    simp
  · intro dir
    unfold list_saved_workflows
    rw [foldl_append_filterMap]
    simp only [List.nil_append]
    exact pairwise_filterMap_mtime _ (sortByMtimeDesc_sorted _)
  · rfl

end N8n
